import Mathlib

/-
Verification of the retail-inventory platform's forecasting + reorder-decision
core, shallowly embedded from the Python sources:
  backend/core/optimization/reorder_engine.py
  backend/core/forecasting/models.py

Modelling conventions:
  * Python floats are modelled as rationals; every concrete input used in a
    theorem below is chosen so that the float computation is exact (or its
    comparison outcome is robust to rounding), so the verdicts transfer.
  * numpy's sqrt (and hence np.std, which the claims never inspect) is
    modelled by an arbitrary function argument `sq`; every theorem holds for
    all instantiations, in particular the true square root.
  * Fallible Python code returns an Except value; the exception class is
    recorded in PyErr.
  * Python's int() conversion truncates toward zero: pyTrunc.
-/

deriving instance DecidableEq for Except

/-- Exception classes raised by the embedded code. -/
inductive PyErr where
  | attributeError
  | valueError
  | indexError
  | zeroDivisionError
  deriving DecidableEq, Repr

/-- Python int() conversion: truncation toward zero. -/
def pyTrunc (x : ℚ) : ℤ := if 0 ≤ x then ⌊x⌋ else ⌈x⌉

/-- Python division, raising ZeroDivisionError on a zero divisor. -/
def pyDiv (a b : ℚ) : Except PyErr ℚ :=
  if b = 0 then .error .zeroDivisionError else .ok (a / b)

/-- The state of a Python object attribute that the declared dataclass fields
do not cover.  `ReorderPointConfig` (reorder_engine.py:15-26) declares no field
named demand_during_lt, so on every config object the repository constructs
this slot is `missing`, and reading it (reorder_engine.py:112) raises
AttributeError.  `pyNone`/`value` model an attribute set dynamically by some
other code; nothing in the repository ever sets it. -/
inductive AttrSlot where
  | missing
  | pyNone
  | value (v : ℚ)
  deriving DecidableEq, Repr

/-- ReorderPointConfig (reorder_engine.py:15-26), with the dataclass defaults.
The extra slot `demand_during_lt` models the dynamic attribute namespace of
the Python object; the dataclass constructor leaves it `missing`. -/
structure ReorderPointConfig where
  service_level : ℚ := 95/100
  safety_stock_multiplier : ℚ := 128/100
  min_order_quantity : ℤ := 1
  case_pack_size : ℤ := 1
  min_order_value : ℚ := 0
  lead_time_days : ℕ := 7
  lead_time_std_days : ℚ := 2
  review_period_days : ℕ := 1
  budget_cap : Option ℚ := none
  demand_during_lt : AttrSlot := .missing
  deriving DecidableEq, Repr

/-- Urgency levels (reorder_engine.py:42). -/
inductive Urgency where
  | critical
  | high
  | medium
  | low
  deriving DecidableEq, Repr, Inhabited

/-- The dictionary returned by calculate_demand_during_lead_time
(reorder_engine.py:83-88). -/
structure LTDemand where
  p50_demand : ℚ
  p90_demand : ℚ
  std_demand : ℚ
  total_demand : ℚ
  deriving DecidableEq, Repr

/-- ReorderRecommendation (reorder_engine.py:29-44).  The fields
recommendation_date (wall-clock time) and reasoning (decimal string formatting
of floats) are orthogonal to every claim and are not modelled. -/
structure ReorderRecommendation where
  product_id : String
  store_id : String
  current_inventory : ℤ
  reorder_point : ℤ
  reorder_quantity : ℤ
  safety_stock : ℤ
  demand_during_lt : ℤ
  lead_time_days : ℕ
  service_level : ℚ
  total_cost : ℚ
  urgency : Urgency
  deriving DecidableEq, Repr

/-- Ascending sort of the values, as numpy performs internally before taking a
percentile.  (For a list of values any correct sort yields the same list.) -/
def pySorted (l : List ℚ) : List ℚ := l.insertionSort (· ≤ ·)

/-- Linear-interpolation percentile of an already sorted list s:
virtual position pos = q*(n-1)/100, k = floor(pos), d = pos - k,
result = s[k] + d*(s[k+1] - s[k]).  This is numpy's default method. -/
def percLinear (s : List ℚ) (q : ℚ) : ℚ :=
  let n := s.length
  let pos := q * ((n : ℚ) - 1) / 100
  let k := (Int.floor pos).toNat
  let d := pos - (k : ℚ)
  s.getD k 0 + d * (s.getD (k + 1) 0 - s.getD k 0)

/-- np.percentile(l, q) with the default linear interpolation. -/
def npPercentile (l : List ℚ) (q : ℚ) : ℚ := percLinear (pySorted l) q

/-- np.mean. -/
def npMean (l : List ℚ) : ℚ := l.sum / l.length

/-- The argument of the sqrt inside np.std (population variance, ddof = 0). -/
def popVariance (l : List ℚ) : ℚ :=
  (l.map (fun x => (x - npMean l) ^ 2)).sum / l.length

/-- ReorderPointEngine.calculate_demand_during_lead_time
(reorder_engine.py:55-88).  Raises ValueError when the forecast list is
shorter than the lead time (line 70-71); when the truncated list is empty
(lead_time_days = 0) np.percentile raises IndexError.  `sq` models np.sqrt
(used by np.std for std_demand). -/
def calculate_demand_during_lead_time (sq : ℚ → ℚ) (daily_forecasts : List ℚ)
    (lead_time_days : ℕ) : Except PyErr LTDemand :=
  if daily_forecasts.length < lead_time_days then .error .valueError
  else
    let lt_forecasts := daily_forecasts.take lead_time_days
    if lt_forecasts = [] then .error .indexError
    else .ok ⟨npMean lt_forecasts, npPercentile lt_forecasts 90,
              sq (popVariance lt_forecasts), lt_forecasts.sum⟩

/-- The z-score lookup (reorder_engine.py:106-107):
z_scores.get(service_level, 1.645). -/
def zScore (service_level : ℚ) : ℚ :=
  if service_level = 90/100 then 128/100
  else if service_level = 95/100 then 1645/1000
  else if service_level = 99/100 then 2326/1000
  else 1645/1000

/-- ReorderPointEngine.calculate_safety_stock (reorder_engine.py:90-115).
The method reads self.config.lead_time_days and self.config.demand_during_lt
(line 111-112), i.e. the ENGINE config, not any per-call override; `engineCfg`
is that self.config.  Since ReorderPointConfig declares no demand_during_lt
field, the read raises AttributeError whenever the slot is `missing`, which is
the case for every config the repository builds.  The `or 0` of line 112 maps
a dynamically set None (and 0.0) to 0. -/
def calculate_safety_stock (sq : ℚ → ℚ) (engineCfg : ReorderPointConfig)
    (std_demand lead_time_std service_level : ℚ) : Except PyErr ℚ :=
  let z := zScore service_level
  match engineCfg.demand_during_lt with
  | .missing => .error .attributeError
  | .pyNone =>
      .ok (max 0 (z * sq ((engineCfg.lead_time_days : ℚ) * std_demand ^ 2 +
        (0 : ℚ) ^ 2 * lead_time_std ^ 2)))
  | .value v =>
      .ok (max 0 (z * sq ((engineCfg.lead_time_days : ℚ) * std_demand ^ 2 +
        v ^ 2 * lead_time_std ^ 2)))

/-- ReorderPointEngine.calculate_reorder_point (reorder_engine.py:117-136).
Line 133 divides by self.config.lead_time_days (the engine config).  In the
embedding a zero lead time yields review_demand 0 instead of Python's
ZeroDivisionError; all theorems below assume lead_time_days >= 1. -/
def calculate_reorder_point (engineCfg : ReorderPointConfig)
    (demand_during_lt safety_stock : ℚ) (review_period_days : ℕ) : ℤ :=
  let review_demand := demand_during_lt *
    ((review_period_days : ℚ) / (engineCfg.lead_time_days : ℚ))
  let reorder_point := demand_during_lt + safety_stock + review_demand
  max 0 ⌈reorder_point⌉

/-- ReorderPointEngine.calculate_reorder_quantity (reorder_engine.py:138-170). -/
def calculate_reorder_quantity (reorder_point current_inventory
    min_order_qty case_pack_size : ℤ) : ℤ :=
  if current_inventory ≥ reorder_point then 0
  else
    let needed_quantity := reorder_point - current_inventory
    let reorder_qty :=
      if case_pack_size > 1 then
        ⌈(needed_quantity : ℚ) / (case_pack_size : ℚ)⌉ * case_pack_size
      else needed_quantity
    max reorder_qty min_order_qty

/-- ReorderPointEngine.determine_urgency (reorder_engine.py:172-194).
The safety stock is passed as the float computed in step (b). -/
def determine_urgency (current_inventory reorder_point : ℤ)
    (safety_stock : ℚ) : Urgency :=
  if (current_inventory : ℚ) ≤ safety_stock then .critical
  else if (current_inventory : ℚ) ≤ (reorder_point : ℚ) * (1/2) then .high
  else if current_inventory ≤ reorder_point then .medium
  else .low

/-- Lines 234-283 of generate_reorder_recommendation: the continuation of the
pipeline once step (b) has produced a safety-stock value `ss` (and step (a)
the dict `lt`).  Split out so the reorder-point/quantity/urgency/budget-clamp
logic can be reasoned about although in the source step (b) always raises
(see calculate_safety_stock).  `localCfg` is local_config, `engineCfg` is
self.config (used by calculate_reorder_point's line 133). -/
def postSafetyStock (localCfg engineCfg : ReorderPointConfig)
    (product_id store_id : String) (current_inventory : ℤ) (lt : LTDemand)
    (ss : ℚ) (unit_cost : ℚ) : Except PyErr ReorderRecommendation :=
  let reorder_point :=
    calculate_reorder_point engineCfg lt.p90_demand ss localCfg.review_period_days
  let reorder_qty := calculate_reorder_quantity reorder_point current_inventory
    localCfg.min_order_quantity localCfg.case_pack_size
  let urgency := determine_urgency current_inventory reorder_point ss
  let total_cost := (reorder_qty : ℚ) * unit_cost
  -- Budget clamp, lines 255-261.  `if local_config.budget_cap and ...`:
  -- a None or 0.0 budget_cap is falsy and skips the clamp; a raised
  -- ZeroDivisionError propagates.
  let clamped : Except PyErr (ℤ × ℚ × Urgency) :=
    match localCfg.budget_cap with
    | some cap =>
        if cap ≠ 0 ∧ total_cost > cap then
          match pyDiv cap unit_cost with
          | .error e => .error e
          | .ok q =>
              let max_qty := pyTrunc q
              let qty := min reorder_qty max_qty
              .ok (qty, (qty : ℚ) * unit_cost, .high)
        else .ok (reorder_qty, total_cost, urgency)
    | none => .ok (reorder_qty, total_cost, urgency)
  match clamped with
  | .error e => .error e
  | .ok (qty, cost, urg) =>
      .ok ⟨product_id, store_id, current_inventory, reorder_point, qty,
           pyTrunc ss, pyTrunc lt.p90_demand, localCfg.lead_time_days,
           localCfg.service_level, cost, urg⟩

/-- ReorderPointEngine.generate_reorder_recommendation
(reorder_engine.py:196-287).  `cfgOverride` is the optional per-call config;
`engineCfg` is self.config, which calculate_safety_stock and
calculate_reorder_point read internally. -/
def generate_reorder_recommendation (sq : ℚ → ℚ)
    (product_id store_id : String) (current_inventory : ℤ)
    (daily_forecasts : List ℚ) (unit_cost : ℚ)
    (cfgOverride : Option ReorderPointConfig)
    (engineCfg : ReorderPointConfig) : Except PyErr ReorderRecommendation :=
  let localCfg := cfgOverride.getD engineCfg
  match calculate_demand_during_lead_time sq daily_forecasts
      localCfg.lead_time_days with
  | .error e => .error e
  | .ok lt =>
      match calculate_safety_stock sq engineCfg lt.std_demand
          localCfg.lead_time_std_days localCfg.service_level with
      | .error e => .error e
      | .ok ss =>
          postSafetyStock localCfg engineCfg product_id store_id
            current_inventory lt ss unit_cost

/-- One inventory record consumed by batch_reorder_recommendations
(reorder_engine.py:335-337,350-352): product_id and current_inventory are
mandatory keys, store_id defaults to "default" and unit_cost to 0.0. -/
structure InventoryItem where
  product_id : String
  store_id : Option String
  current_inventory : ℤ
  unit_cost : Option ℚ
  deriving DecidableEq, Repr

/-- The argument tuple with which batch_reorder_recommendations invokes
generate_reorder_recommendation for one item (reorder_engine.py:347-354). -/
structure EngineCall where
  product_id : String
  store_id : String
  current_inventory : ℤ
  daily_forecasts : List ℚ
  unit_cost : ℚ
  config : Option ReorderPointConfig
  deriving DecidableEq, Repr

/-- The per-item lookup logic of batch_reorder_recommendations
(reorder_engine.py:335-354): an item whose product_id is absent from
forecast_data is skipped (none); otherwise the engine is called with the
forecasts and per-product config looked up by product_id alone. -/
def batchItemCall (forecast_data : String → Option (List ℚ))
    (configs : Option (String → Option ReorderPointConfig))
    (item : InventoryItem) : Option EngineCall :=
  match forecast_data item.product_id with
  | none => none
  | some fs =>
      some ⟨item.product_id, item.store_id.getD "default",
            item.current_inventory, fs, item.unit_cost.getD 0,
            configs.bind (fun cs => cs item.product_id)⟩

/-- Sort key of reorder_engine.py:362. -/
def urgencyRank : Urgency → ℕ
  | .critical => 0
  | .high => 1
  | .medium => 2
  | .low => 3

/-- ReorderPointEngine.batch_reorder_recommendations
(reorder_engine.py:318-365): per-item lookup, engine call with failures
caught and dropped, stable sort by urgency rank. -/
def batch_reorder_recommendations (sq : ℚ → ℚ) (inventory_data : List InventoryItem)
    (forecast_data : String → Option (List ℚ))
    (configs : Option (String → Option ReorderPointConfig))
    (engineCfg : ReorderPointConfig) : List ReorderRecommendation :=
  let recs := inventory_data.filterMap (fun item =>
    (batchItemCall forecast_data configs item).bind (fun c =>
      (generate_reorder_recommendation sq c.product_id c.store_id
        c.current_inventory c.daily_forecasts c.unit_cost c.config
        engineCfg).toOption))
  recs.insertionSort (fun a b => urgencyRank a.urgency ≤ urgencyRank b.urgency)

/-
Forecasting side: backend/core/forecasting/models.py.  A sales observation is
a (date, quantity) pair; dates are modelled as integers (day numbers).  The
Prophet library itself is an external collaborator: the only state of a fitted
model the repository observes is model.history, the dataframe passed to fit,
so a fitted model is modelled by that dataframe.
-/

/-- The date-ordering used by prepare_data_for_prophet's sort_values. -/
def byDate (a b : ℤ × ℚ) : Prop := a.1 ≤ b.1

instance : DecidableRel byDate := fun a b => inferInstanceAs (Decidable (a.1 ≤ b.1))

/-- ProphetForecaster.prepare_data_for_prophet (models.py:35-61): sort by
date, clamp quantities to >= 0.  (NaN rows cannot arise in the rational
model, so the dropna of line 56 is the identity here.  pandas sort_values
uses an unstable quicksort; no theorem below depends on the relative order
of equal dates.) -/
def prepareData (sales_data : List (ℤ × ℚ)) : List (ℤ × ℚ) :=
  (sales_data.insertionSort byDate).map (fun p => (p.1, max 0 p.2))

/-- The model-registry key (models.py:113,177,254,274):
f"{product_id}_{store_id}" if store_id else product_id.  An empty store_id
string is falsy in Python and behaves like an absent one. -/
def modelKey (product_id : String) (store_id : Option String) : String :=
  match store_id with
  | some s => if s = "" then product_id else product_id ++ "_" ++ s
  | none => product_id

/-- The ProphetForecaster registry state: self.models, mapping a key string to
the fitted model, itself represented by its history dataframe. -/
structure ForecasterState where
  models : String → Option (List (ℤ × ℚ))

/-- ProphetForecaster.train (models.py:63-160), reduced to its registry
effect: prepare the data, raise ValueError ("Insufficient data ... Need at
least 30 days.") when the prepared frame has fewer than 30 rows (line 80-81),
otherwise fit and store the model under the concatenated key (line 113-114).
Cross-validation metrics are not modelled. -/
def trainModel (st : ForecasterState) (sales_data : List (ℤ × ℚ))
    (product_id : String) (store_id : Option String) :
    Except PyErr ForecasterState :=
  let prophet_df := prepareData sales_data
  if prophet_df.length < 30 then .error .valueError
  else .ok ⟨fun k => if k = modelKey product_id store_id then some prophet_df
                     else st.models k⟩

/-- pandas drop_duplicates(subset=['ds']) with the default keep='first':
keep a row only when its date has not occurred earlier in the frame. -/
def dropDupByDate (seen : List ℤ) : List (ℤ × ℚ) → List (ℤ × ℚ)
  | [] => []
  | x :: xs =>
      if x.1 ∈ seen then dropDupByDate seen xs
      else x :: dropDupByDate (x.1 :: seen) xs

/-- The merged history computed by ProphetForecaster.update_model at
models.py:287: pd.concat([model.history, new_prophet_df]).drop_duplicates(
subset=['ds']) — the stored history comes first, and drop_duplicates keeps
the FIRST row for each date. -/
def updatedHistory (stored : List (ℤ × ℚ)) (new_sales : List (ℤ × ℚ)) :
    List (ℤ × ℚ) :=
  dropDupByDate [] (stored ++ prepareData new_sales)

/-- ProphetForecaster.update_model (models.py:261-323), reduced to its
registry effect: ValueError when no model exists under the key (line 276-277),
otherwise replace the stored model by one refit on the merged history
(lines 287-288). -/
def updateModel (st : ForecasterState) (product_id : String)
    (new_sales_data : List (ℤ × ℚ)) (store_id : Option String) :
    Except PyErr ForecasterState :=
  match st.models (modelKey product_id store_id) with
  | none => .error .valueError
  | some hist =>
      .ok ⟨fun k => if k = modelKey product_id store_id then
                      some (updatedHistory hist new_sales_data)
                    else st.models k⟩

/-- Modelled from the spec's words, for comparison in claim C8: the number of
distinct observation dates in a history. -/
def specDistinctDateCount (sales_data : List (ℤ × ℚ)) : ℕ :=
  (sales_data.map Prod.fst).dedup.length

/-
Helper lemmas (shared).
-/

/-- Step (d) returns 0 when inventory covers the reorder point. -/
theorem reorder_qty_of_ge {rop ci moq cps : ℤ} (h : ci ≥ rop) :
    calculate_reorder_quantity rop ci moq cps = 0 := by
  unfold calculate_reorder_quantity
  simp [h]

/-- Step (d) returns a positive quantity when inventory is strictly below the
reorder point. -/
theorem reorder_qty_pos {rop ci moq cps : ℤ} (h : ci < rop) :
    0 < calculate_reorder_quantity rop ci moq cps := by
  unfold calculate_reorder_quantity
  rw [if_neg (by omega)]
  dsimp only
  have hneed : (0 : ℤ) < rop - ci := by omega
  by_cases hcps : cps > 1
  · rw [if_pos hcps]
    refine lt_of_lt_of_le ?_ (le_max_left _ _)
    have hceil : 0 < ⌈((rop - ci : ℤ) : ℚ) / ((cps : ℤ) : ℚ)⌉ := by
      rw [Int.ceil_pos]
      positivity
    exact mul_pos hceil (by omega)
  · rw [if_neg hcps]
    exact lt_of_lt_of_le hneed (le_max_left _ _)

/-- Step (d)'s positive results are at least the minimum order quantity. -/
theorem reorder_qty_min_order {rop ci moq cps : ℤ} (h : ci < rop) :
    moq ≤ calculate_reorder_quantity rop ci moq cps := by
  unfold calculate_reorder_quantity
  rw [if_neg (by omega)]
  dsimp only
  exact le_max_right _ _

/-- Step (d)'s result is a multiple of the case pack size whenever the
minimum order quantity is itself one. -/
theorem reorder_qty_dvd {rop ci moq cps : ℤ} (hcps : 1 < cps)
    (hmoq : cps ∣ moq) : cps ∣ calculate_reorder_quantity rop ci moq cps := by
  unfold calculate_reorder_quantity
  by_cases h : ci ≥ rop
  · simp [h]
  · rw [if_neg h]
    dsimp only
    rw [if_pos hcps]
    rcases max_choice (⌈((rop - ci : ℤ) : ℚ) / ((cps : ℤ) : ℚ)⌉ * cps) moq with
      hm | hm <;> rw [hm]
    · exact Dvd.intro_left _ rfl
    · exact hmoq

/-- C1: the claim asserts that step (b)'s safety stock is computed from the
freshly threaded step-(a) demand-during-lead-time value.  The code instead
reads self.config.demand_during_lt, an attribute no ReorderPointConfig ever
has, so for every request that reaches step (b) (a valid forecast horizon,
lead_time_days >= 1) generate_reorder_recommendation raises AttributeError
and no safety stock is ever returned. -/
theorem c1_safety_stock_reads_missing_attribute (sq : ℚ → ℚ)
    (pid sid : String) (ci : ℤ) (fs : List ℚ) (uc : ℚ)
    (ovr : Option ReorderPointConfig) (ecfg : ReorderPointConfig)
    (hslot : ecfg.demand_during_lt = AttrSlot.missing)
    (h1 : 1 ≤ (ovr.getD ecfg).lead_time_days)
    (h2 : (ovr.getD ecfg).lead_time_days ≤ fs.length) :
    generate_reorder_recommendation sq pid sid ci fs uc ovr ecfg =
      .error .attributeError := by
  have hnot : ¬ (fs.length < (ovr.getD ecfg).lead_time_days) := not_lt.mpr h2
  have hne : fs.take (ovr.getD ecfg).lead_time_days ≠ [] := by
    intro hcontra
    have hlen : (fs.take (ovr.getD ecfg).lead_time_days).length =
        (ovr.getD ecfg).lead_time_days := by
      rw [List.length_take]
      omega
    rw [hcontra] at hlen
    simp at hlen
    omega
  have hlt : calculate_demand_during_lead_time sq fs
      (ovr.getD ecfg).lead_time_days =
      .ok ⟨npMean (fs.take (ovr.getD ecfg).lead_time_days),
           npPercentile (fs.take (ovr.getD ecfg).lead_time_days) 90,
           sq (popVariance (fs.take (ovr.getD ecfg).lead_time_days)),
           (fs.take (ovr.getD ecfg).lead_time_days).sum⟩ := by
    simp only [calculate_demand_during_lead_time, if_neg hnot, if_neg hne]
  have hss : ∀ std lts sl : ℚ, calculate_safety_stock sq ecfg std lts sl =
      .error .attributeError := by
    intro std lts sl
    simp only [calculate_safety_stock, hslot]
  simp only [generate_reorder_recommendation, hlt, hss]

/-- Witness for C1 at a concrete request: constant forecast 10 over a 7-day
horizon, the default engine config. -/
theorem c1_witness :
    generate_reorder_recommendation (fun _ => 0) "p" "s" 5
      (List.replicate 7 10) 10 none {} = .error .attributeError :=
  c1_safety_stock_reads_missing_attribute (fun _ => 0) "p" "s" 5
    (List.replicate 7 10) 10 none {} rfl (by decide) (by decide)

/-- C2 counterexample: with p90 demand 10 over the default 7-day lead time,
safety stock 0, inventory 5 (reorder point 12), unit cost 10 and a configured
budget cap of 5, the budget clamp truncates floor(5/10) = 0, so the produced
recommendation has reorder_quantity = 0 although current_inventory = 5 is
strictly below reorder_point = 12, refuting
reorder_quantity = 0 iff current_inventory >= reorder_point. -/
theorem c2_counterexample :
    postSafetyStock { budget_cap := some 5 } {} "p" "s" 5 ⟨10, 10, 0, 70⟩ 0 10 =
      .ok ⟨"p", "s", 5, 12, 0, 0, 10, 7, 19/20, 0, .high⟩ ∧
    (5 : ℤ) < 12 := by
  have h1 : (⌈(80/7 : ℚ)⌉ : ℤ) = 12 := by
    rw [Int.ceil_eq_iff]
    norm_num
  have h2 : (⌊(1/2 : ℚ)⌋ : ℤ) = 0 := by
    rw [Int.floor_eq_iff]
    norm_num
  have h3 : (⌊(10 : ℚ)⌋ : ℤ) = 10 := by
    rw [Int.floor_eq_iff]
    norm_num
  constructor
  · simp only [postSafetyStock, calculate_reorder_point,
      calculate_reorder_quantity, determine_urgency, pyDiv, pyTrunc]
    norm_num [h1, h2, h3]
  · norm_num

/-- C2 amended: for every recommendation the continuation of the pipeline
produces (any configured budget_cap being positive, as the spec requires),
a positive reorder_quantity implies current_inventory < reorder_point, and
current_inventory >= reorder_point implies reorder_quantity = 0; but a zero
reorder_quantity with current_inventory < reorder_point is possible exactly
when the budget clamp fired with floor(budget_cap / unit_cost) = 0 -- the
equivalence claimed by the spec holds except in that clamped case. -/
theorem c2_amended_reorder_trigger (localCfg engineCfg : ReorderPointConfig)
    (pid sid : String) (ci : ℤ) (lt : LTDemand) (ss uc : ℚ)
    (rec : ReorderRecommendation)
    (hcap : ∀ c, localCfg.budget_cap = some c → 0 < c)
    (hok : postSafetyStock localCfg engineCfg pid sid ci lt ss uc = .ok rec) :
    (0 < rec.reorder_quantity → ci < rec.reorder_point) ∧
    (ci ≥ rec.reorder_point → rec.reorder_quantity = 0) ∧
    (rec.reorder_quantity = 0 → ci < rec.reorder_point →
      ∃ c, localCfg.budget_cap = some c ∧ pyTrunc (c / uc) ≤ 0) := by
  simp only [postSafetyStock] at hok
  set rop := calculate_reorder_point engineCfg lt.p90_demand ss
    localCfg.review_period_days with hropdef
  set qty0 := calculate_reorder_quantity rop ci localCfg.min_order_quantity
    localCfg.case_pack_size with hqty0def
  rcases hbc : localCfg.budget_cap with _ | cap
  · simp only [hbc] at hok
    simp only [Except.ok.injEq] at hok
    have hq : rec.reorder_quantity = qty0 := by rw [← hok]
    have hr : rec.reorder_point = rop := by rw [← hok]
    refine ⟨?_, ?_, ?_⟩
    · intro hpos
      rw [hq] at hpos
      rw [hr]
      by_contra hcon
      push_neg at hcon
      have h0 : qty0 = 0 := by
        rw [hqty0def]
        exact reorder_qty_of_ge hcon
      omega
    · intro hge
      rw [hr] at hge
      rw [hq, hqty0def]
      exact reorder_qty_of_ge hge
    · intro h0 hlt
      rw [hq, hqty0def] at h0
      rw [hr] at hlt
      exact absurd h0 (reorder_qty_pos hlt).ne'
  · have hcappos := hcap cap hbc
    simp only [hbc] at hok
    by_cases hcl : cap ≠ 0 ∧ (qty0 : ℚ) * uc > cap
    · rw [if_pos hcl] at hok
      simp only [pyDiv] at hok
      by_cases huc : uc = 0
      · rw [if_pos huc] at hok
        simp at hok
      · rw [if_neg huc] at hok
        simp only [Except.ok.injEq] at hok
        have hq : rec.reorder_quantity = min qty0 (pyTrunc (cap / uc)) := by
          rw [← hok]
        have hr : rec.reorder_point = rop := by rw [← hok]
        refine ⟨?_, ?_, ?_⟩
        · intro hpos
          rw [hq] at hpos
          have hq0 : 0 < qty0 := (lt_min_iff.mp hpos).1
          rw [hr]
          by_contra hcon
          push_neg at hcon
          have h0 : qty0 = 0 := by
            rw [hqty0def]
            exact reorder_qty_of_ge hcon
          omega
        · intro hge
          rw [hr] at hge
          have h0 : qty0 = 0 := by
            rw [hqty0def]
            exact reorder_qty_of_ge hge
          exfalso
          have hgt := hcl.2
          rw [h0] at hgt
          push_cast at hgt
          simp at hgt
          linarith
        · intro h0 hlt
          rw [hq] at h0
          rw [hr] at hlt
          have hq0 : 0 < qty0 := by
            rw [hqty0def]
            exact reorder_qty_pos hlt
          have ht : ¬ (0 < pyTrunc (cap / uc)) :=
            fun hposT => absurd h0 (lt_min hq0 hposT).ne'
          exact ⟨cap, rfl, not_lt.mp ht⟩
    · rw [if_neg hcl] at hok
      simp only [Except.ok.injEq] at hok
      have hq : rec.reorder_quantity = qty0 := by rw [← hok]
      have hr : rec.reorder_point = rop := by rw [← hok]
      refine ⟨?_, ?_, ?_⟩
      · intro hpos
        rw [hq] at hpos
        rw [hr]
        by_contra hcon
        push_neg at hcon
        have h0 : qty0 = 0 := by
          rw [hqty0def]
          exact reorder_qty_of_ge hcon
        omega
      · intro hge
        rw [hr] at hge
        rw [hq, hqty0def]
        exact reorder_qty_of_ge hge
      · intro h0 hlt
        rw [hq, hqty0def] at h0
        rw [hr] at hlt
        exact absurd h0 (reorder_qty_pos hlt).ne'

/-- Witness for C2 amended at a concrete unclamped request: inventory 5,
reorder point 12, quantity 7. -/
theorem c2_witness :
    (0 < (7 : ℤ) → (5 : ℤ) < 12) ∧
    ((5 : ℤ) ≥ 12 → (7 : ℤ) = 0) ∧
    ((7 : ℤ) = 0 → (5 : ℤ) < 12 →
      ∃ c, (none : Option ℚ) = some c ∧ pyTrunc (c / 10) ≤ 0) := by
  have h1 : (⌈(80/7 : ℚ)⌉ : ℤ) = 12 := by
    rw [Int.ceil_eq_iff]
    norm_num
  have h3 : (⌊(10 : ℚ)⌋ : ℤ) = 10 := by
    rw [Int.floor_eq_iff]
    norm_num
  have hok : postSafetyStock {} {} "p" "s" 5 ⟨10, 10, 0, 70⟩ 0 10 =
      .ok ⟨"p", "s", 5, 12, 7, 0, 10, 7, 19/20, 70, .high⟩ := by
    simp only [postSafetyStock, calculate_reorder_point,
      calculate_reorder_quantity, determine_urgency, pyTrunc]
    norm_num [h1, h3]
  have h := c2_amended_reorder_trigger {} {} "p" "s" 5 ⟨10, 10, 0, 70⟩ 0 10
    ⟨"p", "s", 5, 12, 7, 0, 10, 7, 19/20, 70, .high⟩
    (fun c hc => Option.noConfusion hc) hok
  simpa using h

/-- C3 counterexample: with case_pack_size 6, the step-(d) quantity 12 is
clamped by budget cap 50 at unit cost 10 down to 5, which is positive but not
a multiple of 6, refuting the claimed invariant for recommendations produced
after the budget clamp. -/
theorem c3_counterexample :
    postSafetyStock { case_pack_size := 6, budget_cap := some 50 } {}
      "p" "s" 5 ⟨10, 10, 0, 70⟩ 0 10 =
      .ok ⟨"p", "s", 5, 12, 5, 0, 10, 7, 19/20, 50, .high⟩ ∧
    ¬ ((6 : ℤ) ∣ 5) ∧ (1 : ℤ) < 6 := by
  have h1 : (⌈(80/7 : ℚ)⌉ : ℤ) = 12 := by
    rw [Int.ceil_eq_iff]
    norm_num
  have h2 : (⌈(7 : ℚ) / 6⌉ : ℤ) = 2 := by
    rw [Int.ceil_eq_iff]
    norm_num
  have h3 : (⌊(10 : ℚ)⌋ : ℤ) = 10 := by
    rw [Int.floor_eq_iff]
    norm_num
  have h4 : (⌊(5 : ℚ)⌋ : ℤ) = 5 := by
    rw [Int.floor_eq_iff]
    norm_num
  refine ⟨?_, by decide, by decide⟩
  simp only [postSafetyStock, calculate_reorder_point,
    calculate_reorder_quantity, determine_urgency, pyDiv, pyTrunc]
  norm_num [h1, h2, h3, h4]

/-- C3 amended: when no budget cap is configured (so the clamp cannot fire)
and the case pack size divides the minimum order quantity, every positive
reorder_quantity produced is at least min_order_quantity and, when
case_pack_size > 1, a multiple of it.  The counterexample shows the clamp
breaks both properties; step (d)'s max with min_order_quantity additionally
breaks the multiple property when case_pack_size does not divide
min_order_quantity (calculate_reorder_quantity 12 5 13 6 = 13). -/
theorem c3_amended_quantity_granularity (localCfg engineCfg : ReorderPointConfig)
    (pid sid : String) (ci : ℤ) (lt : LTDemand) (ss uc : ℚ)
    (rec : ReorderRecommendation)
    (hnc : localCfg.budget_cap = none)
    (hdvd : 1 < localCfg.case_pack_size →
      localCfg.case_pack_size ∣ localCfg.min_order_quantity)
    (hok : postSafetyStock localCfg engineCfg pid sid ci lt ss uc = .ok rec)
    (hpos : 0 < rec.reorder_quantity) :
    localCfg.min_order_quantity ≤ rec.reorder_quantity ∧
    (1 < localCfg.case_pack_size →
      localCfg.case_pack_size ∣ rec.reorder_quantity) := by
  simp only [postSafetyStock, hnc] at hok
  set rop := calculate_reorder_point engineCfg lt.p90_demand ss
    localCfg.review_period_days with hropdef
  simp only [Except.ok.injEq] at hok
  have hq : rec.reorder_quantity = calculate_reorder_quantity rop ci
      localCfg.min_order_quantity localCfg.case_pack_size := by rw [← hok]
  by_cases hge : ci ≥ rop
  · rw [hq, reorder_qty_of_ge hge] at hpos
    exact absurd hpos (lt_irrefl 0)
  · push_neg at hge
    constructor
    · rw [hq]
      exact reorder_qty_min_order hge
    · intro hcps
      rw [hq]
      exact reorder_qty_dvd hcps (hdvd hcps)

/-- Witness for C3 amended: min_order_quantity 6, case_pack_size 6,
inventory 5, reorder point 12 gives quantity 12. -/
theorem c3_witness :
    (6 : ℤ) ≤ 12 ∧ ((1 : ℤ) < 6 → (6 : ℤ) ∣ 12) := by
  have h1 : (⌈(80/7 : ℚ)⌉ : ℤ) = 12 := by
    rw [Int.ceil_eq_iff]
    norm_num
  have h2 : (⌈(7 : ℚ) / 6⌉ : ℤ) = 2 := by
    rw [Int.ceil_eq_iff]
    norm_num
  have h3 : (⌊(10 : ℚ)⌋ : ℤ) = 10 := by
    rw [Int.floor_eq_iff]
    norm_num
  have hok : postSafetyStock { min_order_quantity := 6, case_pack_size := 6 }
      {} "p" "s" 5 ⟨10, 10, 0, 70⟩ 0 10 =
      .ok ⟨"p", "s", 5, 12, 12, 0, 10, 7, 19/20, 120, .high⟩ := by
    simp only [postSafetyStock, calculate_reorder_point,
      calculate_reorder_quantity, determine_urgency, pyTrunc]
    norm_num [h1, h2, h3]
  have h := c3_amended_quantity_granularity
    { min_order_quantity := 6, case_pack_size := 6 } {} "p" "s" 5
    ⟨10, 10, 0, 70⟩ 0 10 ⟨"p", "s", 5, 12, 12, 0, 10, 7, 19/20, 120, .high⟩
    rfl (fun _ => by decide) hok (by norm_num)
  simpa using h

/-- C5: the budget clamp (reorder_engine.py:256-261) sets urgency to
exactly high; at this request step (e) computes critical (inventory 3 at or
below safety stock 5) and the clamp then DOWNGRADES it to high,
contradicting the claim (and the code's own comment that the budget
constraint increases urgency).  The first half of the claim -- clamped
urgency is at least high -- does hold, since the clamp always yields high. -/
theorem c5_budget_clamp_downgrades_critical :
    postSafetyStock { budget_cap := some 50 } {} "p" "s" 3 ⟨10, 10, 0, 70⟩ 5 10 =
      .ok ⟨"p", "s", 3, 17, 5, 5, 10, 7, 19/20, 50, .high⟩ ∧
    determine_urgency 3 17 5 = .critical := by
  have h1 : (⌈(115/7 : ℚ)⌉ : ℤ) = 17 := by
    rw [Int.ceil_eq_iff]
    norm_num
  have h3 : (⌊(10 : ℚ)⌋ : ℤ) = 10 := by
    rw [Int.floor_eq_iff]
    norm_num
  have h4 : (⌊(5 : ℚ)⌋ : ℤ) = 5 := by
    rw [Int.floor_eq_iff]
    norm_num
  constructor
  · simp only [postSafetyStock, calculate_reorder_point,
      calculate_reorder_quantity, determine_urgency, pyDiv, pyTrunc]
    norm_num [h1, h3, h4]
  · simp only [determine_urgency]
    norm_num

/-- C6: with unit_cost = 0 and a configured positive budget_cap the clamp
condition total_cost > budget_cap is false (total_cost = 0), so the clamp --
and with it the division budget_cap / unit_cost -- is skipped and the
recommendation keeps exactly the step-(d) quantity and step-(e) urgency.
(lead_time_days >= 1 keeps the embedding inside Python's non-raising range
for calculate_reorder_point.) -/
theorem c6_zero_unit_cost_skips_clamp (localCfg engineCfg : ReorderPointConfig)
    (pid sid : String) (ci : ℤ) (lt : LTDemand) (ss : ℚ) (c : ℚ)
    (hc : localCfg.budget_cap = some c) (hcpos : 0 < c)
    (hltd : 1 ≤ engineCfg.lead_time_days) :
    ∃ rec, postSafetyStock localCfg engineCfg pid sid ci lt ss 0 = .ok rec ∧
      rec.reorder_quantity = calculate_reorder_quantity
        (calculate_reorder_point engineCfg lt.p90_demand ss
          localCfg.review_period_days) ci
        localCfg.min_order_quantity localCfg.case_pack_size ∧
      rec.urgency = determine_urgency ci
        (calculate_reorder_point engineCfg lt.p90_demand ss
          localCfg.review_period_days) ss ∧
      rec.total_cost = 0 := by
  simp only [postSafetyStock, hc]
  rw [if_neg ?hneg]
  case hneg =>
    rintro ⟨-, hgt⟩
    rw [mul_zero] at hgt
    linarith
  exact ⟨_, rfl, rfl, rfl, mul_zero _⟩

/-- Witness for C6 at a concrete request: budget cap 50, unit cost 0. -/
theorem c6_witness :
    ∃ rec, postSafetyStock { budget_cap := some 50 } {} "p" "s" 5
        ⟨10, 10, 0, 70⟩ 0 0 = .ok rec ∧
      rec.reorder_quantity = calculate_reorder_quantity
        (calculate_reorder_point {} 10 0 1) 5 1 1 ∧
      rec.urgency = determine_urgency 5 (calculate_reorder_point {} 10 0 1) 0 ∧
      rec.total_cost = 0 := by
  have h := c6_zero_unit_cost_skips_clamp { budget_cap := some 50 } {}
    "p" "s" 5 ⟨10, 10, 0, 70⟩ 0 50 rfl (by norm_num) (by norm_num)
  simpa using h

/-- For a sorted list of at most 10 rationals, the mean is at most the
linearly interpolated 90th percentile.  (This fails from length 11 on:
see the C4 counterexample.) -/
theorem sortedMeanLeP90 (s : List ℚ) (hsort : s.Sorted (· ≤ ·))
    (h1 : 1 ≤ s.length) (h10 : s.length ≤ 10) :
    s.sum / (s.length : ℚ) ≤ percLinear s 90 := by
  obtain _ | ⟨x0, _ | ⟨x1, _ | ⟨x2, _ | ⟨x3, _ | ⟨x4, _ | ⟨x5, _ | ⟨x6, _ |
    ⟨x7, _ | ⟨x8, _ | ⟨x9, _ | ⟨x10, rest⟩⟩⟩⟩⟩⟩⟩⟩⟩⟩⟩ := s
  · simp at h1
  · simp only [percLinear, List.length_cons, List.length_nil,
      List.sum_cons, List.sum_nil]
    norm_num [List.getD]
  · have hf : (⌊(9/10 : ℚ)⌋ : ℤ) = 0 := by
      rw [Int.floor_eq_iff]
      norm_num
    have g0 : x0 ≤ x1 := List.rel_of_sorted_cons hsort x1 (by simp)
    simp only [percLinear, List.length_cons, List.length_nil,
      List.sum_cons, List.sum_nil]
    norm_num [hf, show Int.toNat 0 = (0 : ℕ) from rfl, List.getD]
    linarith
  · have hf : (⌊(9/5 : ℚ)⌋ : ℤ) = 1 := by
      rw [Int.floor_eq_iff]
      norm_num
    have g0 : x0 ≤ x1 := List.rel_of_sorted_cons hsort x1 (by simp)
    have hs1 := hsort.of_cons
    have g1 : x1 ≤ x2 := List.rel_of_sorted_cons hs1 x2 (by simp)
    simp only [percLinear, List.length_cons, List.length_nil,
      List.sum_cons, List.sum_nil]
    norm_num [hf, show Int.toNat 1 = (1 : ℕ) from rfl, List.getD]
    linarith
  · have hf : (⌊(27/10 : ℚ)⌋ : ℤ) = 2 := by
      rw [Int.floor_eq_iff]
      norm_num
    have g0 : x0 ≤ x1 := List.rel_of_sorted_cons hsort x1 (by simp)
    have hs1 := hsort.of_cons
    have g1 : x1 ≤ x2 := List.rel_of_sorted_cons hs1 x2 (by simp)
    have hs2 := hs1.of_cons
    have g2 : x2 ≤ x3 := List.rel_of_sorted_cons hs2 x3 (by simp)
    simp only [percLinear, List.length_cons, List.length_nil,
      List.sum_cons, List.sum_nil]
    norm_num [hf, show Int.toNat 2 = (2 : ℕ) from rfl, List.getD]
    linarith
  · have hf : (⌊(18/5 : ℚ)⌋ : ℤ) = 3 := by
      rw [Int.floor_eq_iff]
      norm_num
    have g0 : x0 ≤ x1 := List.rel_of_sorted_cons hsort x1 (by simp)
    have hs1 := hsort.of_cons
    have g1 : x1 ≤ x2 := List.rel_of_sorted_cons hs1 x2 (by simp)
    have hs2 := hs1.of_cons
    have g2 : x2 ≤ x3 := List.rel_of_sorted_cons hs2 x3 (by simp)
    have hs3 := hs2.of_cons
    have g3 : x3 ≤ x4 := List.rel_of_sorted_cons hs3 x4 (by simp)
    simp only [percLinear, List.length_cons, List.length_nil,
      List.sum_cons, List.sum_nil]
    norm_num [hf, show Int.toNat 3 = (3 : ℕ) from rfl, List.getD]
    linarith
  · have hf : (⌊(9/2 : ℚ)⌋ : ℤ) = 4 := by
      rw [Int.floor_eq_iff]
      norm_num
    have g0 : x0 ≤ x1 := List.rel_of_sorted_cons hsort x1 (by simp)
    have hs1 := hsort.of_cons
    have g1 : x1 ≤ x2 := List.rel_of_sorted_cons hs1 x2 (by simp)
    have hs2 := hs1.of_cons
    have g2 : x2 ≤ x3 := List.rel_of_sorted_cons hs2 x3 (by simp)
    have hs3 := hs2.of_cons
    have g3 : x3 ≤ x4 := List.rel_of_sorted_cons hs3 x4 (by simp)
    have hs4 := hs3.of_cons
    have g4 : x4 ≤ x5 := List.rel_of_sorted_cons hs4 x5 (by simp)
    simp only [percLinear, List.length_cons, List.length_nil,
      List.sum_cons, List.sum_nil]
    norm_num [hf, show Int.toNat 4 = (4 : ℕ) from rfl, List.getD]
    linarith
  · have hf : (⌊(27/5 : ℚ)⌋ : ℤ) = 5 := by
      rw [Int.floor_eq_iff]
      norm_num
    have g0 : x0 ≤ x1 := List.rel_of_sorted_cons hsort x1 (by simp)
    have hs1 := hsort.of_cons
    have g1 : x1 ≤ x2 := List.rel_of_sorted_cons hs1 x2 (by simp)
    have hs2 := hs1.of_cons
    have g2 : x2 ≤ x3 := List.rel_of_sorted_cons hs2 x3 (by simp)
    have hs3 := hs2.of_cons
    have g3 : x3 ≤ x4 := List.rel_of_sorted_cons hs3 x4 (by simp)
    have hs4 := hs3.of_cons
    have g4 : x4 ≤ x5 := List.rel_of_sorted_cons hs4 x5 (by simp)
    have hs5 := hs4.of_cons
    have g5 : x5 ≤ x6 := List.rel_of_sorted_cons hs5 x6 (by simp)
    simp only [percLinear, List.length_cons, List.length_nil,
      List.sum_cons, List.sum_nil]
    norm_num [hf, show Int.toNat 5 = (5 : ℕ) from rfl, List.getD]
    linarith
  · have hf : (⌊(63/10 : ℚ)⌋ : ℤ) = 6 := by
      rw [Int.floor_eq_iff]
      norm_num
    have g0 : x0 ≤ x1 := List.rel_of_sorted_cons hsort x1 (by simp)
    have hs1 := hsort.of_cons
    have g1 : x1 ≤ x2 := List.rel_of_sorted_cons hs1 x2 (by simp)
    have hs2 := hs1.of_cons
    have g2 : x2 ≤ x3 := List.rel_of_sorted_cons hs2 x3 (by simp)
    have hs3 := hs2.of_cons
    have g3 : x3 ≤ x4 := List.rel_of_sorted_cons hs3 x4 (by simp)
    have hs4 := hs3.of_cons
    have g4 : x4 ≤ x5 := List.rel_of_sorted_cons hs4 x5 (by simp)
    have hs5 := hs4.of_cons
    have g5 : x5 ≤ x6 := List.rel_of_sorted_cons hs5 x6 (by simp)
    have hs6 := hs5.of_cons
    have g6 : x6 ≤ x7 := List.rel_of_sorted_cons hs6 x7 (by simp)
    simp only [percLinear, List.length_cons, List.length_nil,
      List.sum_cons, List.sum_nil]
    norm_num [hf, show Int.toNat 6 = (6 : ℕ) from rfl, List.getD]
    linarith
  · have hf : (⌊(36/5 : ℚ)⌋ : ℤ) = 7 := by
      rw [Int.floor_eq_iff]
      norm_num
    have g0 : x0 ≤ x1 := List.rel_of_sorted_cons hsort x1 (by simp)
    have hs1 := hsort.of_cons
    have g1 : x1 ≤ x2 := List.rel_of_sorted_cons hs1 x2 (by simp)
    have hs2 := hs1.of_cons
    have g2 : x2 ≤ x3 := List.rel_of_sorted_cons hs2 x3 (by simp)
    have hs3 := hs2.of_cons
    have g3 : x3 ≤ x4 := List.rel_of_sorted_cons hs3 x4 (by simp)
    have hs4 := hs3.of_cons
    have g4 : x4 ≤ x5 := List.rel_of_sorted_cons hs4 x5 (by simp)
    have hs5 := hs4.of_cons
    have g5 : x5 ≤ x6 := List.rel_of_sorted_cons hs5 x6 (by simp)
    have hs6 := hs5.of_cons
    have g6 : x6 ≤ x7 := List.rel_of_sorted_cons hs6 x7 (by simp)
    have hs7 := hs6.of_cons
    have g7 : x7 ≤ x8 := List.rel_of_sorted_cons hs7 x8 (by simp)
    simp only [percLinear, List.length_cons, List.length_nil,
      List.sum_cons, List.sum_nil]
    norm_num [hf, show Int.toNat 7 = (7 : ℕ) from rfl, List.getD]
    linarith
  · have hf : (⌊(81/10 : ℚ)⌋ : ℤ) = 8 := by
      rw [Int.floor_eq_iff]
      norm_num
    have g0 : x0 ≤ x1 := List.rel_of_sorted_cons hsort x1 (by simp)
    have hs1 := hsort.of_cons
    have g1 : x1 ≤ x2 := List.rel_of_sorted_cons hs1 x2 (by simp)
    have hs2 := hs1.of_cons
    have g2 : x2 ≤ x3 := List.rel_of_sorted_cons hs2 x3 (by simp)
    have hs3 := hs2.of_cons
    have g3 : x3 ≤ x4 := List.rel_of_sorted_cons hs3 x4 (by simp)
    have hs4 := hs3.of_cons
    have g4 : x4 ≤ x5 := List.rel_of_sorted_cons hs4 x5 (by simp)
    have hs5 := hs4.of_cons
    have g5 : x5 ≤ x6 := List.rel_of_sorted_cons hs5 x6 (by simp)
    have hs6 := hs5.of_cons
    have g6 : x6 ≤ x7 := List.rel_of_sorted_cons hs6 x7 (by simp)
    have hs7 := hs6.of_cons
    have g7 : x7 ≤ x8 := List.rel_of_sorted_cons hs7 x8 (by simp)
    have hs8 := hs7.of_cons
    have g8 : x8 ≤ x9 := List.rel_of_sorted_cons hs8 x9 (by simp)
    simp only [percLinear, List.length_cons, List.length_nil,
      List.sum_cons, List.sum_nil]
    norm_num [hf, show Int.toNat 8 = (8 : ℕ) from rfl, List.getD]
    linarith
  · simp only [List.length_cons] at h10
    omega

/-- The mean never exceeds numpy's 90th percentile on lists of at most 10
values. -/
theorem mean_le_percentile90 (l : List ℚ) (h1 : 1 ≤ l.length)
    (h10 : l.length ≤ 10) : npMean l ≤ npPercentile l 90 := by
  have hperm := List.perm_insertionSort (· ≤ ·) l
  have hsort : (pySorted l).Sorted (· ≤ ·) :=
    List.sorted_insertionSort (· ≤ ·) l
  have hlen : (pySorted l).length = l.length := hperm.length_eq
  have hsum : (pySorted l).sum = l.sum := hperm.sum_eq
  unfold npMean npPercentile
  rw [← hsum, ← hlen]
  exact sortedMeanLeP90 (pySorted l) hsort (by omega) (by omega)

/-- C4 amended: the claimed inequality p90_demand >= p50_demand holds for
every request whose lead time is at most 10 days (for any forecast list of
sufficient length, non-negative or not); the counterexample shows it fails
for lead_time_days = 11. -/
theorem c4_amended_p90_ge_p50 (sq : ℚ → ℚ) (daily_forecasts : List ℚ)
    (lead_time_days : ℕ) (h1 : 1 ≤ lead_time_days)
    (h10 : lead_time_days ≤ 10)
    (hlen : lead_time_days ≤ daily_forecasts.length)
    (hnn : ∀ x ∈ daily_forecasts, 0 ≤ x) (r : LTDemand)
    (hok : calculate_demand_during_lead_time sq daily_forecasts
      lead_time_days = .ok r) :
    r.p50_demand ≤ r.p90_demand := by
  have hnotlt : ¬ (daily_forecasts.length < lead_time_days) := not_lt.mpr hlen
  have htk : (daily_forecasts.take lead_time_days).length = lead_time_days := by
    rw [List.length_take]
    omega
  have hne : daily_forecasts.take lead_time_days ≠ [] := by
    intro hcon
    rw [hcon] at htk
    simp at htk
    omega
  simp only [calculate_demand_during_lead_time, if_neg hnotlt, if_neg hne,
    Except.ok.injEq] at hok
  have hp50 : r.p50_demand = npMean (daily_forecasts.take lead_time_days) := by
    rw [← hok]
  have hp90 : r.p90_demand =
      npPercentile (daily_forecasts.take lead_time_days) 90 := by
    rw [← hok]
  rw [hp50, hp90]
  exact mean_le_percentile90 _ (by omega) (by omega)

/-- C4 counterexample: for lead_time_days = 11 and the non-negative forecast
list with ten 0s and one 11 (length 11), numpy's interpolated 90th percentile
is the 10th smallest value, 0, while the mean is 1, so the returned
p90_demand = 0 is strictly BELOW p50_demand = 1, refuting the claim as
stated for arbitrary lead times. -/
theorem c4_counterexample :
    calculate_demand_during_lead_time (fun _ => 0)
      [0, 0, 0, 0, 0, 0, 0, 0, 0, 0, 11] 11 = .ok ⟨1, 0, 0, 11⟩ ∧
    (∀ x ∈ ([0, 0, 0, 0, 0, 0, 0, 0, 0, 0, 11] : List ℚ), 0 ≤ x) ∧
    ¬ ((1 : ℚ) ≤ 0) := by
  refine ⟨?_, by norm_num, by norm_num⟩
  have hsorted : ([0, 0, 0, 0, 0, 0, 0, 0, 0, 0, 11] : List ℚ).Sorted (· ≤ ·) := by
    norm_num [List.sorted_cons]
  have hps : pySorted [0, 0, 0, 0, 0, 0, 0, 0, 0, 0, 11] =
      ([0, 0, 0, 0, 0, 0, 0, 0, 0, 0, 11] : List ℚ) :=
    hsorted.insertionSort_eq
  have hf : (⌊(9 : ℚ)⌋ : ℤ) = 9 := by
    rw [Int.floor_eq_iff]
    norm_num
  have htk : List.take 11 [0, 0, 0, 0, 0, 0, 0, 0, 0, 0, (11:ℚ)] =
      [0, 0, 0, 0, 0, 0, 0, 0, 0, 0, 11] := rfl
  simp only [calculate_demand_during_lead_time, htk, npMean, npPercentile,
    hps, percLinear, popVariance, List.sum_cons, List.sum_nil,
    List.length_cons, List.length_nil, List.map]
  norm_num [hf, show Int.toNat 9 = (9 : ℕ) from rfl, List.getD]
  intro hcon
  simp at hcon

/-- Witness for C4 amended: constant forecasts of 10 over a 7-day lead time
give p50_demand = p90_demand = 10. -/
theorem c4_witness :
    (⟨10, 10, 0, 70⟩ : LTDemand).p50_demand ≤
      (⟨10, 10, 0, 70⟩ : LTDemand).p90_demand := by
  have hsorted : ([10, 10, 10, 10, 10, 10, 10] : List ℚ).Sorted (· ≤ ·) := by
    norm_num [List.sorted_cons]
  have hps : pySorted [10, 10, 10, 10, 10, 10, 10] =
      ([10, 10, 10, 10, 10, 10, 10] : List ℚ) :=
    hsorted.insertionSort_eq
  have hf : (⌊(27/5 : ℚ)⌋ : ℤ) = 5 := by
    rw [Int.floor_eq_iff]
    norm_num
  have htk : List.take 7 [10, 10, 10, 10, 10, 10, (10:ℚ)] =
      [10, 10, 10, 10, 10, 10, 10] := rfl
  have hok : calculate_demand_during_lead_time (fun _ => 0)
      [10, 10, 10, 10, 10, 10, 10] 7 = .ok ⟨10, 10, 0, 70⟩ := by
    simp only [calculate_demand_during_lead_time, htk, npMean, npPercentile,
      hps, percLinear, popVariance, List.sum_cons, List.sum_nil,
      List.length_cons, List.length_nil, List.map]
    norm_num [hf, show Int.toNat 5 = (5 : ℕ) from rfl, List.getD]
    intro hcon
    simp at hcon
  exact c4_amended_p90_ge_p50 (fun _ => 0) [10, 10, 10, 10, 10, 10, 10] 7
    (by norm_num) (by norm_num) (by norm_num) (by norm_num) ⟨10, 10, 0, 70⟩ hok

/-- Removing later duplicate dates never changes a lookup for a date not yet
seen, because lookup returns the first occurrence. -/
theorem lookup_dropDupByDate (d : ℤ) (seen : List ℤ) (l : List (ℤ × ℚ))
    (hd : d ∉ seen) : (dropDupByDate seen l).lookup d = l.lookup d := by
  induction l generalizing seen with
  | nil => rfl
  | cons x xs ih =>
    obtain ⟨xd, xq⟩ := x
    by_cases hx : xd ∈ seen
    · have hne : (d == xd) = false := by
        simp only [beq_eq_false_iff_ne]
        intro hcon
        rw [hcon] at hd
        exact hd hx
      simp only [dropDupByDate, if_pos hx]
      rw [ih seen hd]
      simp [List.lookup, hne]
    · simp only [dropDupByDate, if_neg hx]
      rcases hq : (d == xd) with _ | _
      · have hd' : d ∉ xd :: seen := by
          simp only [List.mem_cons]
          rintro (hcon | hcon)
          · rw [hcon] at hq
            simp at hq
          · exact hd hcon
        simp [List.lookup, hq, ih (xd :: seen) hd']
      · simp [List.lookup, hq]

/-- Lookup distributes over append, preferring the first list. -/
theorem lookup_append_or (d : ℤ) (l1 l2 : List (ℤ × ℚ)) :
    (l1 ++ l2).lookup d = ((l1.lookup d).or (l2.lookup d)) := by
  induction l1 with
  | nil => simp [List.lookup]
  | cons x xs ih =>
    obtain ⟨xd, xq⟩ := x
    rcases hq : (d == xd) with _ | _
    · simp [List.lookup, hq, ih]
    · simp [List.lookup, hq]

/-- C7 amended: update_model refits the stored model on the merged history,
but on a duplicate date the PREVIOUSLY STORED observation wins
(drop_duplicates keeps the first occurrence, and the stored history is
concatenated first); a date absent from the stored history takes the newly
supplied value. -/
theorem c7_amended_stored_wins_on_duplicate (st : ForecasterState)
    (pid : String) (sid : Option String) (newSales hist : List (ℤ × ℚ))
    (st' : ForecasterState)
    (hmodel : st.models (modelKey pid sid) = some hist)
    (hok : updateModel st pid newSales sid = .ok st') :
    st'.models (modelKey pid sid) = some (updatedHistory hist newSales) ∧
    ∀ d : ℤ, (updatedHistory hist newSales).lookup d =
      ((hist.lookup d).or ((prepareData newSales).lookup d)) := by
  simp only [updateModel, hmodel, Except.ok.injEq] at hok
  constructor
  · rw [← hok]
    simp
  · intro d
    unfold updatedHistory
    rw [lookup_dropDupByDate d [] _ (by simp), lookup_append_or]

/-- C7 counterexample: merging new observations (0, 9), (1, 3) into a stored
history holding (0, 5) keeps the OLD value 5 at the duplicate date 0 and
discards the newly supplied 9, refuting "the later (newly supplied)
observation wins". -/
theorem c7_counterexample :
    updatedHistory [(0, 5)] [(0, 9), (1, 3)] = [(0, 5), (1, 3)] ∧
    ((0 : ℤ), (9 : ℚ)) ∈ prepareData [(0, 9), (1, 3)] ∧
    (5 : ℚ) ≠ 9 := by
  refine ⟨?_, ?_, ?_⟩ <;> decide

/-- Witness for C7 amended at the concrete merge of the counterexample. -/
theorem c7_witness :
    List.lookup (0 : ℤ) (updatedHistory [((0:ℤ), (5:ℚ))] [(0, 9), (1, 3)]) =
      some 5 := by
  obtain ⟨st2, hok⟩ : ∃ st2,
      updateModel ⟨fun k => if k = "p" then some [((0:ℤ), (5:ℚ))] else none⟩
        "p" [(0, 9), (1, 3)] none = .ok st2 := ⟨_, rfl⟩
  have h := c7_amended_stored_wins_on_duplicate
    ⟨fun k => if k = "p" then some [((0:ℤ), (5:ℚ))] else none⟩ "p" none
    [(0, 9), (1, 3)] [((0:ℤ), (5:ℚ))] st2 (by simp [modelKey]) hok
  rw [h.2 0]
  decide

/-- C8 amended: train raises its insufficient-data ValueError exactly when
the PREPARED frame (sorted, clamped; duplicate dates NOT deduplicated) has
fewer than 30 rows -- the check counts rows, not distinct dates. -/
theorem c8_amended_row_count_threshold (st : ForecasterState)
    (sales : List (ℤ × ℚ)) (pid : String) (sid : Option String) :
    trainModel st sales pid sid = .error .valueError ↔
      (prepareData sales).length < 30 := by
  unfold trainModel
  by_cases h : (prepareData sales).length < 30
  · simp [h]
  · simp [h]

/-- C8 counterexample: a history of 30 rows all on the same date has a single
distinct observation date (1 < 30), yet train succeeds -- the
insufficient-data error claimed for "fewer than 30 distinct dates" is not
raised. -/
theorem c8_counterexample :
    (trainModel ⟨fun _ => none⟩ (List.replicate 30 ((0:ℤ), (1:ℚ)))
      "p" none).isOk = true ∧
    specDistinctDateCount (List.replicate 30 ((0:ℤ), (1:ℚ))) = 1 ∧
    (1 : ℕ) < 30 := by
  refine ⟨?_, ?_, ?_⟩ <;> decide

/-- C9 counterexample: the identities ("a_b", absent) and ("a", "b") are
distinct but map to the same registry key "a_b", so training the second
overwrites the model stored for the first: after the two trainings the
key holds the second history, not the first. -/
theorem c9_counterexample :
    modelKey "a_b" none = modelKey "a" (some "b") ∧
    (("a_b", (none : Option String)) ≠ ("a", some "b")) ∧
    ((trainModel ⟨fun _ => none⟩ (List.replicate 30 ((0:ℤ), (1:ℚ)))
        "a_b" none).bind
      (fun st1 => trainModel st1 (List.replicate 30 ((0:ℤ), (2:ℚ)))
        "a" (some "b"))).map
        (fun st2 => st2.models (modelKey "a_b" none)) =
      .ok (some (prepareData (List.replicate 30 ((0:ℤ), (2:ℚ))))) ∧
    prepareData (List.replicate 30 ((0:ℤ), (2:ℚ))) ≠
      prepareData (List.replicate 30 ((0:ℤ), (1:ℚ))) := by
  refine ⟨?_, ?_, ?_, ?_⟩ <;> decide

/-- C9 amended: the registry keeps two identities separate exactly when
their CONCATENATED keys differ -- training or updating one identity leaves
the model stored under any different key unchanged.  Identities whose keys
collide (such as the counterexample's) do overwrite each other. -/
theorem c9_amended_frame_on_distinct_keys (st : ForecasterState)
    (sales : List (ℤ × ℚ)) (p1 p2 : String) (s1 s2 : Option String)
    (hne : modelKey p1 s1 ≠ modelKey p2 s2) :
    (∀ st2, trainModel st sales p2 s2 = .ok st2 →
      st2.models (modelKey p1 s1) = st.models (modelKey p1 s1)) ∧
    (∀ st2, updateModel st p2 sales s2 = .ok st2 →
      st2.models (modelKey p1 s1) = st.models (modelKey p1 s1)) := by
  constructor
  · intro st2 hok
    unfold trainModel at hok
    by_cases h : (prepareData sales).length < 30
    · rw [if_pos h] at hok
      simp at hok
    · rw [if_neg h] at hok
      simp only [Except.ok.injEq] at hok
      rw [← hok]
      simp [if_neg hne]
  · intro st2 hok
    unfold updateModel at hok
    cases hm : st.models (modelKey p2 s2) with
    | none =>
        rw [hm] at hok
        simp at hok
    | some hist =>
        rw [hm] at hok
        simp only [Except.ok.injEq] at hok
        rw [← hok]
        simp [if_neg hne]

/-- Witness for C9 amended: training "y" leaves the (distinct) key of
("x", absent) unmapped. -/
theorem c9_witness :
    (trainModel ⟨fun _ => none⟩ (List.replicate 30 ((0:ℤ), (1:ℚ)))
      "y" none).map (fun st2 => st2.models (modelKey "x" none)) =
      .ok none := by
  obtain ⟨st2, hok⟩ : ∃ st2, trainModel ⟨fun _ => none⟩
      (List.replicate 30 ((0:ℤ), (1:ℚ))) "y" none = .ok st2 := ⟨_, rfl⟩
  have h := (c9_amended_frame_on_distinct_keys ⟨fun _ => none⟩
    (List.replicate 30 ((0:ℤ), (1:ℚ))) "x" "y" none none (by decide)).1 st2 hok
  rw [hok]
  simp [Except.map, h]

/-- C10: in the batch loop both the forecast series and the per-item config
are looked up by product_id alone, so an item is skipped precisely when its
product_id has no forecast series (whatever its store_id), and two items
sharing a product_id are passed identical forecasts and identical configs. -/
theorem c10_batch_lookup_by_product (forecast_data : String → Option (List ℚ))
    (configs : Option (String → Option ReorderPointConfig))
    (i1 i2 : InventoryItem) (hpid : i1.product_id = i2.product_id) :
    (batchItemCall forecast_data configs i1 = none ↔
      forecast_data i1.product_id = none) ∧
    (∀ c1 c2, batchItemCall forecast_data configs i1 = some c1 →
      batchItemCall forecast_data configs i2 = some c2 →
      c1.daily_forecasts = c2.daily_forecasts ∧ c1.config = c2.config) := by
  have hf2 : forecast_data i2.product_id = forecast_data i1.product_id := by
    rw [hpid]
  cases hf : forecast_data i1.product_id with
  | none =>
      rw [hf] at hf2
      constructor
      · simp [batchItemCall, hf]
      · intro c1 c2 h1 h2
        simp [batchItemCall, hf] at h1
  | some fs =>
      rw [hf] at hf2
      constructor
      · simp [batchItemCall, hf]
      · intro c1 c2 h1 h2
        simp only [batchItemCall, hf, hf2, Option.some.injEq] at h1 h2
        rw [← h1, ← h2]
        simp [hpid]

/-- Witness for C10: two snapshots of product "p" at stores "s1" and "s2"
receive the same forecast list and the same (absent) config. -/
theorem c10_witness :
    (⟨"p", "s1", 5, [10], 0, none⟩ : EngineCall).daily_forecasts =
      (⟨"p", "s2", 7, [10], 0, none⟩ : EngineCall).daily_forecasts ∧
    (⟨"p", "s1", 5, [10], 0, none⟩ : EngineCall).config =
      (⟨"p", "s2", 7, [10], 0, none⟩ : EngineCall).config :=
  (c10_batch_lookup_by_product (fun _ => some [10]) none
    ⟨"p", some "s1", 5, none⟩ ⟨"p", some "s2", 7, none⟩ rfl).2 _ _ rfl rfl
